import Mathlib

/-!
Shallow embedding of the quality-gated content-refinement pipeline:
the Review Stage answer parsing (`CritiqueAgent._parse_evaluation` and
`CritiqueAgent.evaluate_post` in `src/agents/marketing/critique_agent.py`),
the Refinement Orchestrator loop (`MultiAgentFlow.generate_post` in
`src/agents/marketing/multi_agent_flow.py`), and the Execution Trace
Recorder (`TraceLogger` in `src/shared/trace_logger.py`).

Python numbers are modelled as rationals (`ℚ`); machine time stamps as
naturals.  Fallible Python code is modelled with `Except PyErr`, where
`PyErr` distinguishes the exception classes that matter to the claims
(`TypeError`, `KeyError`).  The JSON decoder (`json.loads`, a library
function external to the repository) is a parameter of the embedding; a
concrete executable instance `decodeSimple` covering flat records is
provided for witnesses and counterexamples.
-/

/-- Python exception classes relevant to the embedded code paths.
`json.JSONDecodeError` and `ValueError` are caught by the source and so
never escape; `TypeError` and `KeyError` are not caught. -/
inductive PyErr where
  | typeError
  | keyError
  deriving DecidableEq

/-- JSON values as produced by `json.loads`: numbers (ints and floats
collapsed to `ℚ`), booleans, strings, null, arrays and objects. -/
inductive JValue where
  | num (q : ℚ)
  | bool (b : Bool)
  | str (s : String)
  | null
  | arr (xs : List JValue)
  | obj (xs : List (String × JValue))

/-- Decoded JSON object: an association list of fields in source order
(keys unique, as `json.loads` deduplicates). -/
abbrev JObj : Type := List (String × JValue)

/-- Python `d[k]` / `k in d` on a decoded object: first matching key. -/
def jLookup (k : String) : JObj → Option JValue
  | [] => none
  | (k', v) :: rest => if k' = k then some v else jLookup k rest

/-- Python `d.get(k, default)`. -/
def jGetD (ev : JObj) (k : String) (d : JValue) : JValue :=
  (jLookup k ev).getD d

/-- Values on which Python numeric operations (`+`, `>=` against a float)
succeed: numbers, and booleans (which Python treats as 0/1). -/
def JValue.isNumeric : JValue → Bool
  | .num _ => true
  | .bool _ => true
  | _ => false

/-- Numeric value of a Python number or boolean. -/
def JValue.toRat : JValue → ℚ
  | .num q => q
  | .bool b => if b then 1 else 0
  | _ => 0

/-- Python `acc + v` for `acc` a number: succeeds on numbers and
booleans, raises `TypeError` otherwise (as in `sum(scores)`). -/
def pyAddNum (acc : ℚ) (v : JValue) : Except PyErr ℚ :=
  match v with
  | .num q => .ok (acc + q)
  | .bool b => .ok (acc + (if b then 1 else 0))
  | _ => .error PyErr.typeError

/-- Python `v >= t` for `t` a float: succeeds on numbers and booleans,
raises `TypeError` otherwise. -/
def pyGE (v : JValue) (t : ℚ) : Except PyErr Bool :=
  match v with
  | .num q => .ok (decide (t ≤ q))
  | .bool b => .ok (decide (t ≤ (if b then (1 : ℚ) else 0)))
  | _ => .error PyErr.typeError

/-- Opening brace character. -/
def lbrace : Char := Char.ofNat 123

/-- Closing brace character. -/
def rbrace : Char := Char.ofNat 125

/-- Python `str.find(c)`: index of the first occurrence, `none` for -1. -/
def findIdx (c : Char) : List Char → Option Nat
  | [] => none
  | x :: xs => if x = c then some 0 else (findIdx c xs).map (fun i => i + 1)

/-- Python `str.rfind(c)`: index of the last occurrence, `none` for -1. -/
def rfindIdx (c : Char) (cs : List Char) : Option Nat :=
  (findIdx c cs.reverse).map (fun i => cs.length - 1 - i)

/-- Envelope extraction of `_parse_evaluation` (critique_agent.py lines
213-218): `start = find("\x7b")`, `end = rfind("\x7d") + 1`, and the
substring `response[start:end]` is taken when `start != -1 and
end > start`.  Returns `none` exactly when the source falls through to
the neutral fallback without attempting to decode. -/
def extractEnvelope (s : String) : Option String :=
  let cs := s.data
  match findIdx lbrace cs, rfindIdx rbrace cs with
  | some i, some j => if i < j + 1 then some (String.mk ((cs.drop i).take (j + 1 - i))) else none
  | _, _ => none

/-- Whitespace characters skipped by the JSON grammar. -/
def isWsChar (c : Char) : Bool :=
  c = ' ' || c = '\n' || c = '\t' || c = '\r'

/-- Drops leading JSON whitespace. -/
def skipWs : List Char → List Char
  | [] => []
  | c :: cs => if isWsChar c then skipWs cs else c :: cs

/-- Takes a maximal run of decimal digits. -/
def takeDigits : List Char → (List Char × List Char)
  | [] => ([], [])
  | c :: cs =>
    if c.isDigit then
      let p := takeDigits cs
      (c :: p.1, p.2)
    else ([], c :: cs)

/-- Numeric value of a digit run. -/
def digitsToNat (ds : List Char) : Nat :=
  ds.foldl (fun acc c => acc * 10 + (c.toNat - 48)) 0

/-- Parses a JSON number (optional sign, integer part, optional
fractional part; exponents unsupported) into a rational. -/
def parseNumber (cs : List Char) : Option (ℚ × List Char) :=
  let p := match cs with
    | c :: rest => if c = '-' then (true, rest) else (false, cs)
    | [] => (false, ([] : List Char))
  match takeDigits p.2 with
  | ([], _) => none
  | (ds, rest) =>
    let intPart : ℚ := (digitsToNat ds : ℚ)
    let signed : ℚ → ℚ := fun q => if p.1 then -q else q
    match rest with
    | '.' :: rest1 =>
      match takeDigits rest1 with
      | ([], _) => none
      | (fs, rest2) =>
        some (signed (intPart + (digitsToNat fs : ℚ) / ((10 : ℚ) ^ fs.length)), rest2)
    | _ => some (signed intPart, rest)

/-- Reads the characters of a JSON string up to the closing quote
(escape sequences unsupported). -/
def takeStringChars : List Char → Option (List Char × List Char)
  | [] => none
  | c :: cs =>
    if c = '"' then some ([], cs)
    else if c = '\\' then none
    else (takeStringChars cs).map (fun p => (c :: p.1, p.2))

/-- Parses a flat JSON value: string, number, `true`, `false`, `null`.
Nested arrays and objects are not supported by this concrete decoder. -/
def parseValue (cs : List Char) : Option (JValue × List Char) :=
  match cs with
  | [] => none
  | c :: rest =>
    if c = '"' then (takeStringChars rest).map (fun p => (JValue.str (String.mk p.1), p.2))
    else if c = 't' then
      match rest with
      | 'r' :: 'u' :: 'e' :: r => some (JValue.bool true, r)
      | _ => none
    else if c = 'f' then
      match rest with
      | 'a' :: 'l' :: 's' :: 'e' :: r => some (JValue.bool false, r)
      | _ => none
    else if c = 'n' then
      match rest with
      | 'u' :: 'l' :: 'l' :: r => some (JValue.null, r)
      | _ => none
    else (parseNumber cs).map (fun p => (JValue.num p.1, p.2))

/-- Parses the members of a JSON object after the opening brace, up to
and including the closing brace.  Fuelled recursion; the fuel is sized
from the input length at the call site. -/
def parseMembers : Nat → List Char → Option (JObj × List Char)
  | 0, _ => none
  | fuel + 1, cs =>
    match skipWs cs with
    | [] => none
    | c :: rest =>
      if c = '"' then
        match takeStringChars rest with
        | none => none
        | some (key, r1) =>
          match skipWs r1 with
          | ':' :: r2 =>
            match parseValue (skipWs r2) with
            | none => none
            | some (v, r3) =>
              match skipWs r3 with
              | ',' :: r4 =>
                (parseMembers fuel r4).map (fun p => ((String.mk key, v) :: p.1, p.2))
              | c2 :: r4 => if c2 = rbrace then some ([(String.mk key, v)], r4) else none
              | [] => none
          | _ => none
      else none

/-- Concrete instance of the JSON decoder parameter: decodes a flat JSON
object (string keys; string, number, boolean or null values) the way
`json.loads` does, returning `none` on anything else.  Used to evaluate
witnesses and counterexamples on concrete inputs; the general theorems
quantify over the decoder. -/
def decodeSimple (s : String) : Option JObj :=
  match skipWs s.data with
  | [] => none
  | c :: rest =>
    if c = lbrace then
      match skipWs rest with
      | [] => none
      | c2 :: rest2 =>
        if c2 = rbrace then (if (skipWs rest2).isEmpty then some [] else none)
        else
          match parseMembers (s.length + 1) rest with
          | some (ms, r) => if (skipWs r).isEmpty then some ms else none
          | none => none
    else none

/-- Feedback text of the neutral fallback evaluation
(critique_agent.py line 241). -/
def fallbackFeedback : String :=
  "Could not parse evaluation properly. Consider regenerating."

/-- Neutral fallback evaluation returned by `_parse_evaluation` when no
envelope is found or decoding raises (critique_agent.py lines 236-243).
Field order follows the source literal. -/
def fallbackEvaluation : JObj :=
  [("score", JValue.num 7), ("brand_adherence", JValue.num 7), ("quality", JValue.num 7),
   ("tone_length", JValue.num 7), ("feedback", JValue.str fallbackFeedback),
   ("approved", JValue.bool false)]

/-- Mean-of-sub-scores computation of `_parse_evaluation`
(critique_agent.py lines 223-228): `sum(scores) / len(scores)` over
`evaluation.get(k, 7)` for the three sub-score keys.  A non-numeric
sub-score value makes Python's `sum` raise `TypeError`, which the
enclosing `except (json.JSONDecodeError, ValueError)` does not catch. -/
def meanScores (ev : JObj) : Except PyErr ℚ :=
  match pyAddNum 0 (jGetD ev "brand_adherence" (JValue.num 7)) with
  | .error e => .error e
  | .ok s1 =>
    match pyAddNum s1 (jGetD ev "quality" (JValue.num 7)) with
    | .error e => .error e
    | .ok s2 =>
      match pyAddNum s2 (jGetD ev "tone_length" (JValue.num 7)) with
      | .error e => .error e
      | .ok s3 => .ok (s3 / 3)

/-- Embedding of `CritiqueAgent._parse_evaluation` (critique_agent.py
lines 203-243), with the external `json.loads` supplied as the `decode`
parameter (`none` models a raised `json.JSONDecodeError`, which the
source catches and turns into the neutral fallback). -/
def parse_evaluation (decode : String → Option JObj) (responseContent : String) :
    Except PyErr JObj :=
  match extractEnvelope responseContent with
  | none => .ok fallbackEvaluation
  | some jsonStr =>
    match decode jsonStr with
    | none => .ok fallbackEvaluation
    | some evaluation =>
      match jLookup "score" evaluation with
      | some _ => .ok evaluation
      | none =>
        match meanScores evaluation with
        | .error e => .error e
        | .ok m => .ok (evaluation ++ [("score", JValue.num m)])

/-- Result-construction core of `CritiqueAgent.evaluate_post`
(critique_agent.py lines 92-96 and 136): parse the backend response,
compute `approved = evaluation["score"] >= pass_threshold`, read
`evaluation["feedback"]`, and return `(approved, feedback, score)`.
Gateway transport and trace side effects are outside this function; the
backend response text is the `responseContent` argument. -/
def evaluate_post (decode : String → Option JObj) (passThreshold : ℚ)
    (responseContent : String) : Except PyErr (Bool × JValue × JValue) :=
  match parse_evaluation decode responseContent with
  | .error e => .error e
  | .ok evaluation =>
    match jLookup "score" evaluation with
    | none => .error PyErr.keyError
    | some scoreV =>
      match pyGE scoreV passThreshold with
      | .error e => .error e
      | .ok approved =>
        match jLookup "feedback" evaluation with
        | none => .error PyErr.keyError
        | some feedback => .ok (approved, feedback, scoreV)

/-- Sufficient decodable-record conditions under which the Review Stage
result construction cannot raise: a "feedback" entry is present, an
explicit "score" entry (when present) is numeric, and the sub-score
values consulted when "score" is absent are numeric. -/
def wellFormedEval (ev : JObj) : Bool :=
  (jLookup "feedback" ev).isSome &&
  (match jLookup "score" ev with
   | some v => v.isNumeric
   | none =>
     (jGetD ev "brand_adherence" (JValue.num 7)).isNumeric &&
     (jGetD ev "quality" (JValue.num 7)).isNumeric &&
     (jGetD ev "tone_length" (JValue.num 7)).isNumeric)

/-- Configuration stored by `MultiAgentFlow.__init__`
(multi_agent_flow.py lines 40-61).  The rewrite budget is an integer
because the source accepts any Python int, including negatives. -/
structure MultiAgentFlowConfig where
  critiqueThreshold : ℚ
  maxRewrites : ℤ
  deriving DecidableEq

/-- Embedding of `MultiAgentFlow.__init__` (multi_agent_flow.py lines
40-61).  The body only constructs the sub-agents (whose `__init__`
bodies in planner_agent.py, writer_agent.py and critique_agent.py only
assign attributes and log) and stores the two configuration values;
no statement in any of these constructors can raise, so the result is
always `Except.ok`. -/
def multiAgentFlowInit (critiqueThreshold : ℚ) (maxRewrites : ℤ) :
    Except PyErr MultiAgentFlowConfig :=
  .ok ⟨critiqueThreshold, maxRewrites⟩

/-- Entry of the `workflow_log` list built by `generate_post`
(multi_agent_flow.py lines 154-161). -/
structure SummaryEntry where
  iteration : Nat
  action : String
  score : ℚ
  approved : Bool

/-- Terminal situation of the critique loop: `accepted` for the
`if approved: break` exit (multi_agent_flow.py line 168), `exhausted`
for the max-rewrites-reached `break` (line 197). -/
inductive TerminalState where
  | accepted
  | exhausted
  deriving DecidableEq

/-- Mutable locals of the critique loop of `generate_post`. -/
structure LoopState where
  content : String
  iterations : Nat
  finalScore : ℚ
  log : List SummaryEntry
  writerCalls : Nat
  critiqueCalls : Nat

/-- Embedding of the `for attempt in range(max_rewrites + 1)` loop of
`generate_post` (multi_agent_flow.py lines 143-197).  The Review Stage
outcome of the draft under review at loop index `attempt` is
`reviews attempt` (its score and feedback, with approval computed as
`score >= threshold` exactly as `evaluate_post` does on a successful
call), and `drafts n` is the Draft Stage output of write attempt `n`
(the writer is an external inference call; on a rewrite the source
passes the previous feedback to it).  The fuel equals the remaining
trip count of the `range`; the loop in fact always exits through one of
its two `break` statements. -/
def critiqueLoop (threshold : ℚ) (maxRewrites : Nat) (reviews : Nat → ℚ × String)
    (drafts : Nat → String) : Nat → Nat → LoopState → LoopState × TerminalState
  | 0, _, st => (st, TerminalState.exhausted)
  | fuel + 1, attempt, st =>
    let score := (reviews attempt).1
    let approved := decide (threshold ≤ score)
    let st' : LoopState :=
      { content := st.content, iterations := st.iterations, finalScore := score,
        log := st.log ++
          [⟨attempt + 1, if attempt = 0 then "initial_write" else "rewrite", score, approved⟩],
        writerCalls := st.writerCalls, critiqueCalls := st.critiqueCalls + 1 }
    if approved then (st', TerminalState.accepted)
    else if attempt < maxRewrites then
      critiqueLoop threshold maxRewrites reviews drafts fuel (attempt + 1)
        { st' with iterations := st'.iterations + 1, content := drafts (attempt + 1),
                   writerCalls := st'.writerCalls + 1 }
    else (st', TerminalState.exhausted)

/-- Result dictionary of `generate_post` (multi_agent_flow.py lines
233-241), extended with the stage invocation counters and the terminal
situation needed to state the spec's invariants. -/
structure FlowResult where
  content : String
  outline : String
  iterations : Nat
  finalScore : ℚ
  workflowSummary : List SummaryEntry
  approved : Bool
  plannerCalls : Nat
  writerCalls : Nat
  critiqueCalls : Nat
  terminal : TerminalState

/-- Embedding of `MultiAgentFlow.generate_post` (multi_agent_flow.py
lines 63-241) for runs in which no stage raises: one
`planner.create_outline` call producing `outline`, one initial
`writer.write_post` call producing `drafts 0`, then the critique loop.
The returned `approved` recomputes `final_score >= threshold` as the
source does (lines 240-241). -/
def generate_post (threshold : ℚ) (maxRewrites : Nat) (outline : String)
    (drafts : Nat → String) (reviews : Nat → ℚ × String) : FlowResult :=
  let st0 : LoopState :=
    { content := drafts 0, iterations := 1, finalScore := 0, log := [],
      writerCalls := 1, critiqueCalls := 0 }
  let p := critiqueLoop threshold maxRewrites reviews drafts (maxRewrites + 1) 0 st0
  { content := p.1.content, outline := outline, iterations := p.1.iterations,
    finalScore := p.1.finalScore, workflowSummary := p.1.log,
    approved := decide (threshold ≤ p.1.finalScore),
    plannerCalls := 1, writerCalls := p.1.writerCalls, critiqueCalls := p.1.critiqueCalls,
    terminal := p.2 }

/-- Action categories of trace steps (`ActionType` in trace_logger.py
lines 13-22), named by their Python member names. -/
inductive ActionType where
  | PLANNING
  | TOOL_USE
  | GENERATION
  | CRITIQUE
  | ERROR
  | INFO
  | REWRITE
  deriving DecidableEq

/-- Status tags of trace steps (`StepStatus` in trace_logger.py lines
25-32), named by their Python member names. -/
inductive StepStatus where
  | SUCCESS
  | FAILURE
  | THINKING
  | TOOL
  | WARNING
  deriving DecidableEq

/-- A logged step (`LogStep` dataclass, trace_logger.py lines 35-55).
Timestamps are abstract naturals supplied by the caller of the
embedding (the source reads the wall clock). -/
structure LogStep where
  agentName : String
  actionType : ActionType
  content : String
  status : StepStatus
  duration : ℚ
  timestamp : Nat
  metadata : List (String × String)
  deriving DecidableEq

/-- Mutable state of the `TraceLogger` singleton (trace_logger.py lines
90-97). -/
structure TraceState where
  steps : List LogStep
  startTime : Option Nat
  endTime : Option Nat
  workflowMetadata : List (String × String)
  deriving DecidableEq

/-- Embedding of `TraceLogger.reset` (trace_logger.py lines 99-104). -/
def reset (st : TraceState) : TraceState :=
  { st with steps := [], startTime := none, endTime := none, workflowMetadata := [] }

/-- Embedding of `TraceLogger.start_workflow` (trace_logger.py lines
106-113): records the wall-clock start time and assigns the supplied
metadata.  The parameter `st` is unused apart from being threaded
through `with`-update semantics: the method touches only `start_time`
and `workflow_metadata`. -/
def start_workflow (st : TraceState) (now : Nat) (metadata : List (String × String)) :
    TraceState :=
  { st with startTime := some now, workflowMetadata := metadata }

/-- Python `str.upper()` (ASCII, which covers all label strings the
code passes). -/
def pyUpper (s : String) : String :=
  String.mk (s.data.map Char.toUpper)

/-- Python `str.replace(" ", "_")`. -/
def underscoreSpaces (s : String) : String :=
  String.mk (s.data.map (fun c => if c = ' ' then '_' else c))

/-- Normalisation applied to an action-type string by `log_step`
(trace_logger.py line 146): `action_type.upper().replace(" ", "_")`. -/
def normalizeActionName (s : String) : String :=
  underscoreSpaces (pyUpper s)

/-- Python `ActionType[name]` member lookup (raising lookups modelled
as `none`, which the source catches). -/
def actionTypeFromName (s : String) : Option ActionType :=
  if s = "PLANNING" then some ActionType.PLANNING
  else if s = "TOOL_USE" then some ActionType.TOOL_USE
  else if s = "GENERATION" then some ActionType.GENERATION
  else if s = "CRITIQUE" then some ActionType.CRITIQUE
  else if s = "ERROR" then some ActionType.ERROR
  else if s = "INFO" then some ActionType.INFO
  else if s = "REWRITE" then some ActionType.REWRITE
  else none

/-- Python `StepStatus[name]` member lookup. -/
def statusFromName (s : String) : Option StepStatus :=
  if s = "SUCCESS" then some StepStatus.SUCCESS
  else if s = "FAILURE" then some StepStatus.FAILURE
  else if s = "THINKING" then some StepStatus.THINKING
  else if s = "TOOL" then some StepStatus.TOOL
  else if s = "WARNING" then some StepStatus.WARNING
  else none

/-- String-to-enum coercion for action types in `log_step`
(trace_logger.py lines 144-148): unknown names fall back to `INFO` via
the caught `KeyError`. -/
def coerceActionType (s : String) : ActionType :=
  (actionTypeFromName (normalizeActionName s)).getD ActionType.INFO

/-- String-to-enum coercion for statuses in `log_step` (trace_logger.py
lines 150-154): unknown names fall back to `THINKING`. -/
def coerceStatus (s : String) : StepStatus :=
  (statusFromName (pyUpper s)).getD StepStatus.THINKING

/-- Embedding of `TraceLogger.log_step` (trace_logger.py lines
124-165).  The `actionType` and `status` arguments carry either an enum
member or a free-form string, as in the source's union-typed
parameters; `now` stands for the `datetime.now()` default timestamp. -/
def log_step (st : TraceState) (agentName : String) (actionType : ActionType ⊕ String)
    (content : String) (status : StepStatus ⊕ String) (duration : ℚ) (now : Nat)
    (metadata : List (String × String)) : TraceState :=
  let a := match actionType with
    | Sum.inl a => a
    | Sum.inr s => coerceActionType s
  let b := match status with
    | Sum.inl b => b
    | Sum.inr s => coerceStatus s
  { st with steps := st.steps ++ [⟨agentName, a, content, b, duration, now, metadata⟩] }

/-- Embedding of `TraceLogger.get_success_rate` (trace_logger.py lines
188-198). -/
def get_success_rate (st : TraceState) : ℚ :=
  if st.steps = [] then 0
  else ((st.steps.countP (fun s => s.status = StepStatus.SUCCESS) : ℚ) /
          (st.steps.length : ℚ)) * 100

/-- Discriminator for normal completion: `true` exactly when the
modelled Python call returns instead of raising. -/
def exOk {α : Type} : Except PyErr α → Bool
  | .ok _ => true
  | .error _ => false

/-- Lookup in an appended object finds an entry of the left part first,
as Python dict insertion order does. -/
theorem jLookup_append_of_some {k : String} {l₁ : JObj} {v : JValue} (l₂ : JObj)
    (h : jLookup k l₁ = some v) : jLookup k (l₁ ++ l₂) = some v := by
  induction l₁ with
  | nil => simp [jLookup] at h
  | cons hd tl ih =>
    obtain ⟨k', w⟩ := hd
    by_cases hk : k' = k
    · subst hk
      simp [jLookup] at h ⊢
      exact h
    · simp [jLookup, hk] at h ⊢
      exact ih h

/-- Lookup in an appended object falls through to the right part when
the key is absent from the left part. -/
theorem jLookup_append_of_none {k : String} {l₁ : JObj} (l₂ : JObj)
    (h : jLookup k l₁ = none) : jLookup k (l₁ ++ l₂) = jLookup k l₂ := by
  induction l₁ with
  | nil => rfl
  | cons hd tl ih =>
    obtain ⟨k', w⟩ := hd
    by_cases hk : k' = k
    · subst hk
      simp [jLookup] at h
    · simp [jLookup, hk] at h ⊢
      exact ih h

/-- Python addition of a numeric JSON value to a number succeeds and
adds its numeric value. -/
theorem pyAddNum_ok {v : JValue} (h : v.isNumeric = true) (acc : ℚ) :
    pyAddNum acc v = Except.ok (acc + v.toRat) := by
  cases v <;> first | rfl | simp [JValue.isNumeric] at h

/-- Invariants of the critique loop, by induction on the remaining trip
count: some number `k` of rewrites is performed, bounded by the fuel,
and the loop performs `k` additional writer calls, `k + 1` critique
calls, `k` iteration increments, appends `k + 1` summary entries, and
the last appended entry's approval flag matches the final score against
the threshold. -/
theorem critiqueLoop_spec (threshold : ℚ) (maxRewrites : Nat) (reviews : Nat → ℚ × String)
    (drafts : Nat → String) :
    ∀ fuel attempt st, 1 ≤ fuel → attempt + fuel = maxRewrites + 1 →
      ∃ k, k + 1 ≤ fuel ∧
        (critiqueLoop threshold maxRewrites reviews drafts fuel attempt st).1.writerCalls
          = st.writerCalls + k ∧
        (critiqueLoop threshold maxRewrites reviews drafts fuel attempt st).1.critiqueCalls
          = st.critiqueCalls + (k + 1) ∧
        (critiqueLoop threshold maxRewrites reviews drafts fuel attempt st).1.iterations
          = st.iterations + k ∧
        (critiqueLoop threshold maxRewrites reviews drafts fuel attempt st).1.log.length
          = st.log.length + (k + 1) ∧
        ∃ e, (critiqueLoop threshold maxRewrites reviews drafts fuel attempt st).1.log.getLast?
            = some e ∧
          e.approved = decide (threshold ≤
            (critiqueLoop threshold maxRewrites reviews drafts fuel attempt st).1.finalScore) := by
  intro fuel
  induction fuel with
  | zero => intro attempt st h1 _; omega
  | succ fuel ih =>
    intro attempt st _ hsum
    by_cases hap : decide (threshold ≤ (reviews attempt).1) = true
    · have hstep : critiqueLoop threshold maxRewrites reviews drafts (fuel + 1) attempt st =
        ({ content := st.content, iterations := st.iterations, finalScore := (reviews attempt).1,
           log := st.log ++ [⟨attempt + 1, if attempt = 0 then "initial_write" else "rewrite",
             (reviews attempt).1, decide (threshold ≤ (reviews attempt).1)⟩],
           writerCalls := st.writerCalls, critiqueCalls := st.critiqueCalls + 1 },
         TerminalState.accepted) := by
        simp [critiqueLoop, hap]
      rw [hstep]
      exact ⟨0, by omega, rfl, rfl, rfl, by simp, ⟨_, List.getLast?_concat _, rfl⟩⟩
    · rw [Bool.not_eq_true] at hap
      by_cases hlt : attempt < maxRewrites
      · have hfuel : 1 ≤ fuel := by omega
        have hsum2 : (attempt + 1) + fuel = maxRewrites + 1 := by omega
        have hstep : critiqueLoop threshold maxRewrites reviews drafts (fuel + 1) attempt st =
            critiqueLoop threshold maxRewrites reviews drafts fuel (attempt + 1)
              { content := drafts (attempt + 1), iterations := st.iterations + 1,
                finalScore := (reviews attempt).1,
                log := st.log ++ [⟨attempt + 1,
                  if attempt = 0 then "initial_write" else "rewrite", (reviews attempt).1,
                  decide (threshold ≤ (reviews attempt).1)⟩],
                writerCalls := st.writerCalls + 1,
                critiqueCalls := st.critiqueCalls + 1 } := by
          simp [critiqueLoop, hap, hlt]
        obtain ⟨k, hk, hw, hc, hi, hl, e, he, hea⟩ := ih (attempt + 1)
          { content := drafts (attempt + 1), iterations := st.iterations + 1,
            finalScore := (reviews attempt).1,
            log := st.log ++ [⟨attempt + 1,
              if attempt = 0 then "initial_write" else "rewrite", (reviews attempt).1,
              decide (threshold ≤ (reviews attempt).1)⟩],
            writerCalls := st.writerCalls + 1,
            critiqueCalls := st.critiqueCalls + 1 } hfuel hsum2
        rw [hstep]
        refine ⟨k + 1, by omega, ?_, ?_, ?_, ?_, ⟨e, he, hea⟩⟩
        · rw [hw]; show st.writerCalls + 1 + k = st.writerCalls + (k + 1); omega
        · rw [hc]; show st.critiqueCalls + 1 + (k + 1) = st.critiqueCalls + (k + 1 + 1); omega
        · rw [hi]; show st.iterations + 1 + k = st.iterations + (k + 1)
          omega
        · rw [hl]
          show (st.log ++ [_]).length + (k + 1) = st.log.length + (k + 1 + 1)
          simp only [List.length_append, List.length_singleton]
          omega
      · have hstep : critiqueLoop threshold maxRewrites reviews drafts (fuel + 1) attempt st =
          ({ content := st.content, iterations := st.iterations, finalScore := (reviews attempt).1,
             log := st.log ++ [⟨attempt + 1, if attempt = 0 then "initial_write" else "rewrite",
               (reviews attempt).1, decide (threshold ≤ (reviews attempt).1)⟩],
             writerCalls := st.writerCalls, critiqueCalls := st.critiqueCalls + 1 },
           TerminalState.exhausted) := by
          simp [critiqueLoop, hap, hlt]
        rw [hstep]
        exact ⟨0, by omega, rfl, rfl, rfl, by simp, ⟨_, List.getLast?_concat _, rfl⟩⟩

/-- C1: for a backend response whose envelope decoding fails, the claim
asserts `evaluate_post` yields the fixed neutral result with
`approved = false` regardless of the configured threshold, in
particular when `pass_threshold <= 7.0`.  This theorem evaluates the
embedded code at the failing input (threshold 6.0, undecodable
response): the code does return the neutral score 7.0 and the fixed
non-empty feedback without raising, but computes
`approved = (7.0 >= 6.0) = true`, because `evaluate_post` recomputes
approval from the neutral score and ignores the fallback record's
`approved: false` entry. -/
theorem evaluate_post_neutral_fallback_behavior :
    evaluate_post decodeSimple 6 "not json at all" =
      Except.ok (true, JValue.str fallbackFeedback, JValue.num 7) := by rfl

/-- C2 counterexample: the claim asserts the Review Stage result
construction never raises for any backend response string.  For the
response whose decoded record is well-formed JSON but lacks a
"feedback" key, `evaluate_post` raises `KeyError` at
`evaluation["feedback"]` (critique_agent.py line 96). -/
theorem evaluate_post_missing_feedback_raises :
    evaluate_post decodeSimple 8 "\x7b\"score\": 5\x7d" = Except.error PyErr.keyError := by rfl

/-- C2 (amended): the Review Stage result construction returns a triple
without raising for every backend response string whose envelope either
fails to decode (the neutral fallback is used) or decodes to a record
that carries a "feedback" entry, whose explicit "score" value (when
present) is numeric, and whose consulted sub-score values (when "score"
is absent) are numeric. -/
theorem evaluate_post_total_on_wellformed (decode : String → Option JObj) (t : ℚ) (s : String)
    (h : ∀ sub ev, extractEnvelope s = some sub → decode sub = some ev →
      wellFormedEval ev = true) :
    exOk (evaluate_post decode t s) = true := by
  have hfb0 : jLookup "score" fallbackEvaluation = some (JValue.num 7) := rfl
  have hfb1 : jLookup "feedback" fallbackEvaluation = some (JValue.str fallbackFeedback) := rfl
  cases henv : extractEnvelope s with
  | none =>
    have hp : parse_evaluation decode s = Except.ok fallbackEvaluation := by
      simp only [parse_evaluation, henv]
    simp [evaluate_post, hp, hfb0, hfb1, pyGE, exOk]
  | some sub =>
    cases hdec : decode sub with
    | none =>
      have hp : parse_evaluation decode s = Except.ok fallbackEvaluation := by
        simp only [parse_evaluation, henv, hdec]
      simp [evaluate_post, hp, hfb0, hfb1, pyGE, exOk]
    | some ev =>
      have hw := h sub ev henv hdec
      simp only [wellFormedEval, Bool.and_eq_true] at hw
      obtain ⟨hfb, hrest⟩ := hw
      obtain ⟨f, hf⟩ := Option.isSome_iff_exists.mp hfb
      cases hsc : jLookup "score" ev with
      | some v =>
        simp only [hsc] at hrest
        have hp : parse_evaluation decode s = Except.ok ev := by
          simp only [parse_evaluation, henv, hdec, hsc]
        obtain ⟨b, hb⟩ : ∃ b, pyGE v t = Except.ok b := by
          cases v <;> first | exact ⟨_, rfl⟩ | simp [JValue.isNumeric] at hrest
        simp [evaluate_post, hp, hsc, hb, hf, exOk]
      | none =>
        simp only [hsc, Bool.and_eq_true] at hrest
        obtain ⟨⟨hn1, hn2⟩, hn3⟩ := hrest
        have hm : meanScores ev = Except.ok
            (((jGetD ev "brand_adherence" (JValue.num 7)).toRat
              + (jGetD ev "quality" (JValue.num 7)).toRat
              + (jGetD ev "tone_length" (JValue.num 7)).toRat) / 3) := by
          simp only [meanScores, pyAddNum_ok hn1, pyAddNum_ok hn2, pyAddNum_ok hn3, zero_add]
        have hp : parse_evaluation decode s = Except.ok (ev ++ [("score", JValue.num
            (((jGetD ev "brand_adherence" (JValue.num 7)).toRat
              + (jGetD ev "quality" (JValue.num 7)).toRat
              + (jGetD ev "tone_length" (JValue.num 7)).toRat) / 3))]) := by
          simp only [parse_evaluation, henv, hdec, hsc, hm]
        have hsc2 : jLookup "score" (ev ++ [("score", JValue.num
            (((jGetD ev "brand_adherence" (JValue.num 7)).toRat
              + (jGetD ev "quality" (JValue.num 7)).toRat
              + (jGetD ev "tone_length" (JValue.num 7)).toRat) / 3))]) = some (JValue.num
            (((jGetD ev "brand_adherence" (JValue.num 7)).toRat
              + (jGetD ev "quality" (JValue.num 7)).toRat
              + (jGetD ev "tone_length" (JValue.num 7)).toRat) / 3)) := by
          rw [jLookup_append_of_none _ hsc]; rfl
        have hf2 : jLookup "feedback" (ev ++ [("score", JValue.num
            (((jGetD ev "brand_adherence" (JValue.num 7)).toRat
              + (jGetD ev "quality" (JValue.num 7)).toRat
              + (jGetD ev "tone_length" (JValue.num 7)).toRat) / 3))]) = some f :=
          jLookup_append_of_some _ hf
        simp [evaluate_post, hp, hsc2, hf2, pyGE, exOk]

/-- Witness for C2 (amended): a concrete decodable response with a
numeric score and a feedback entry, on which `evaluate_post` returns
normally. -/
theorem evaluate_post_total_on_wellformed_witness :
    exOk (evaluate_post decodeSimple 8 "\x7b\"score\": 9, \"feedback\": \"good\"\x7d") = true := by
  apply evaluate_post_total_on_wellformed
  intro sub ev h1 h2
  rw [show extractEnvelope "\x7b\"score\": 9, \"feedback\": \"good\"\x7d"
      = some "\x7b\"score\": 9, \"feedback\": \"good\"\x7d" from rfl] at h1
  injection h1 with h1
  subst h1
  rw [show decodeSimple "\x7b\"score\": 9, \"feedback\": \"good\"\x7d"
      = some [("score", JValue.num 9), ("feedback", JValue.str "good")] from rfl] at h2
  injection h2 with h2
  subst h2
  rfl

/-- C3: the claim asserts that constructing the Orchestrator with a
pass threshold outside [0,10] or a negative rewrite budget raises at
construction time.  This theorem evaluates the embedded constructor at
such a failing input (threshold -3, budget -1): construction completes
normally and stores the invalid values unvalidated — no statement in
`MultiAgentFlow.__init__` or the sub-agent constructors checks them. -/
theorem multiAgentFlowInit_accepts_invalid_config :
    multiAgentFlowInit (-3) (-1) = Except.ok ⟨-3, -1⟩ := rfl

/-- C4: in every completed run of `generate_post` with rewrite budget
`N`, the number of Draft Stage invocations is between 1 and `N + 1`,
exactly one Outline Stage invocation occurs, and the number of Review
Stage invocations equals the number of Draft Stage invocations. -/
theorem generate_post_call_counts (threshold : ℚ) (N : Nat) (outline : String)
    (drafts : Nat → String) (reviews : Nat → ℚ × String) :
    1 ≤ (generate_post threshold N outline drafts reviews).writerCalls ∧
    (generate_post threshold N outline drafts reviews).writerCalls ≤ N + 1 ∧
    (generate_post threshold N outline drafts reviews).plannerCalls = 1 ∧
    (generate_post threshold N outline drafts reviews).critiqueCalls =
      (generate_post threshold N outline drafts reviews).writerCalls := by
  obtain ⟨k, hk, hw, hc, hi, hl, _⟩ := critiqueLoop_spec threshold N reviews drafts (N + 1) 0
    { content := drafts 0, iterations := 1, finalScore := 0, log := [],
      writerCalls := 1, critiqueCalls := 0 } (by omega) (by omega)
  have hpw : (generate_post threshold N outline drafts reviews).writerCalls = 1 + k := by
    simpa [generate_post] using hw
  have hpc : (generate_post threshold N outline drafts reviews).critiqueCalls = 0 + (k + 1) := by
    simpa [generate_post] using hc
  refine ⟨by omega, by omega, rfl, by omega⟩

/-- C5: with threshold 9.0, rewrite budget 1 and review scores 6.0 then
7.0 (neither approved), the run performs 2 iterations, ends not
approved in the exhausted terminal situation, and returns the second
(most recent) draft as final content. -/
theorem generate_post_scenario_b (outline : String) (drafts : Nat → String)
    (fb : Nat → String) :
    (generate_post 9 1 outline drafts (fun n => ((if n = 0 then 6 else 7 : ℚ), fb n))).iterations
        = 2 ∧
    (generate_post 9 1 outline drafts (fun n => ((if n = 0 then 6 else 7 : ℚ), fb n))).approved
        = false ∧
    (generate_post 9 1 outline drafts (fun n => ((if n = 0 then 6 else 7 : ℚ), fb n))).terminal
        = TerminalState.exhausted ∧
    (generate_post 9 1 outline drafts (fun n => ((if n = 0 then 6 else 7 : ℚ), fb n))).content
        = drafts 1 := by
  have h6 : (decide ((9 : ℚ) ≤ 6)) = false := by rfl
  have h7 : (decide ((9 : ℚ) ≤ 7)) = false := by rfl
  refine ⟨?_, ?_, ?_, ?_⟩ <;>
    simp [generate_post, critiqueLoop, h6, h7]

/-- C6: when the envelope substring decodes to a record, an explicit
"score" entry is used as the review score (the record is returned
unchanged), and when no "score" entry is present the review score is
the arithmetic mean of the three sub-scores `brand_adherence`,
`quality` and `tone_length`. -/
theorem parse_evaluation_score_selection (decode : String → Option JObj) (s sub : String)
    (ev : JObj) (h1 : extractEnvelope s = some sub) (h2 : decode sub = some ev) :
    (∀ v, jLookup "score" ev = some v → parse_evaluation decode s = Except.ok ev) ∧
    (jLookup "score" ev = none → ∀ b q t : ℚ,
      jLookup "brand_adherence" ev = some (JValue.num b) →
      jLookup "quality" ev = some (JValue.num q) →
      jLookup "tone_length" ev = some (JValue.num t) →
      parse_evaluation decode s =
        Except.ok (ev ++ [("score", JValue.num ((b + q + t) / 3))])) := by
  constructor
  · intro v hv
    simp only [parse_evaluation, h1, h2, hv]
  · intro hnone b q t hb hq ht
    have hm : meanScores ev = Except.ok ((b + q + t) / 3) := by
      simp only [meanScores, jGetD, hb, hq, ht, Option.getD_some, pyAddNum, zero_add]
    simp only [parse_evaluation, h1, h2, hnone, hm]

/-- Witness for C6: a concrete decodable record without an explicit
score, whose review score becomes the mean of its three sub-scores. -/
theorem parse_evaluation_score_selection_witness :
    parse_evaluation decodeSimple
        "\x7b\"brand_adherence\": 6, \"quality\": 9, \"tone_length\": 9\x7d" =
      Except.ok ([("brand_adherence", JValue.num 6), ("quality", JValue.num 9),
        ("tone_length", JValue.num 9)] ++ [("score", JValue.num ((6 + 9 + 9) / 3))]) := by
  exact (parse_evaluation_score_selection decodeSimple
    "\x7b\"brand_adherence\": 6, \"quality\": 9, \"tone_length\": 9\x7d"
    "\x7b\"brand_adherence\": 6, \"quality\": 9, \"tone_length\": 9\x7d"
    [("brand_adherence", JValue.num 6), ("quality", JValue.num 9),
     ("tone_length", JValue.num 9)]
    rfl rfl).2 rfl 6 9 9 rfl rfl rfl

/-- C7 counterexample: the claim asserts the step list is empty after
`start_workflow`.  Starting a workflow on a recorder state that already
holds one step leaves that step in place: `start_workflow` touches only
the start time and the metadata, and only the separate `reset`
operation clears the step list. -/
theorem start_workflow_keeps_steps :
    (start_workflow
        ⟨[⟨"WriterAgent", ActionType.GENERATION, "draft", StepStatus.SUCCESS, 0, 0, []⟩],
          none, none, []⟩ 1 []).steps ≠ [] := by
  simp [start_workflow]

/-- C7 (amended): `start_workflow` records the start time and replaces
the workflow metadata with the supplied metadata, but leaves the step
list unchanged; the step list is cleared by the separate `reset`
operation. -/
theorem start_workflow_amended (st : TraceState) (now : Nat) (md : List (String × String)) :
    (start_workflow st now md).steps = st.steps ∧
    (start_workflow st now md).startTime = some now ∧
    (start_workflow st now md).workflowMetadata = md ∧
    (reset st).steps = [] :=
  ⟨rfl, rfl, rfl, rfl⟩

/-- C9: `log_step` is total over its label arguments: every call with
string labels appends exactly one step, and a string naming no known
action type is coerced to `INFO` while a string naming no known status
is coerced to `THINKING`. -/
theorem log_step_total_and_coercion (st : TraceState) (agent content : String) (d : ℚ)
    (now : Nat) (md : List (String × String)) (s t s2 t2 : String)
    (ha : actionTypeFromName (normalizeActionName s) = none)
    (hs : statusFromName (pyUpper t) = none) :
    (log_step st agent (Sum.inr s2) content (Sum.inr t2) d now md).steps.length
        = st.steps.length + 1 ∧
    (log_step st agent (Sum.inr s) content (Sum.inr t) d now md).steps
        = st.steps ++ [⟨agent, ActionType.INFO, content, StepStatus.THINKING, d, now, md⟩] := by
  constructor
  · simp [log_step]
  · simp [log_step, coerceActionType, coerceStatus, ha, hs]

/-- Witness for C9: logging with the unknown labels "draft" and "odd"
on an empty recorder appends exactly one `INFO`/`THINKING` step. -/
theorem log_step_total_and_coercion_witness :
    (log_step ⟨[], none, none, []⟩ "Agent" (Sum.inr "draft") "step" (Sum.inr "odd") 0 0
        []).steps.length = 0 + 1 ∧
    (log_step ⟨[], none, none, []⟩ "Agent" (Sum.inr "draft") "step" (Sum.inr "odd") 0 0 []).steps
        = [⟨"Agent", ActionType.INFO, "step", StepStatus.THINKING, 0, 0, []⟩] := by
  have h := log_step_total_and_coercion ⟨[], none, none, []⟩ "Agent" "step" 0 0 []
    "draft" "odd" "draft" "odd" rfl rfl
  simpa using h

/-- C10: `get_success_rate` is total and bounded: it returns 0 on an
empty step list (no division by zero) and its value always lies in
[0, 100]. -/
theorem get_success_rate_bounds (st : TraceState) :
    0 ≤ get_success_rate st ∧ get_success_rate st ≤ 100 ∧
    get_success_rate { st with steps := [] } = 0 := by
  refine ⟨?_, ?_, by simp [get_success_rate]⟩
  · unfold get_success_rate
    split
    · norm_num
    · positivity
  · unfold get_success_rate
    split
    · norm_num
    · rename_i hne
      have hlen : 0 < (st.steps.length : ℚ) := by
        have h0 : st.steps.length ≠ 0 := by
          simpa [List.length_eq_zero] using hne
        have h1 : 0 < st.steps.length := Nat.pos_of_ne_zero h0
        exact_mod_cast h1
      have hcount : ((st.steps.countP (fun x => x.status = StepStatus.SUCCESS) : ℕ) : ℚ)
          ≤ (st.steps.length : ℚ) := by
        exact_mod_cast List.countP_le_length _
      have hdiv : ((st.steps.countP (fun x => x.status = StepStatus.SUCCESS) : ℕ) : ℚ)
          / (st.steps.length : ℚ) ≤ 1 := (div_le_one hlen).mpr hcount
      calc ((st.steps.countP (fun x => x.status = StepStatus.SUCCESS) : ℕ) : ℚ)
            / (st.steps.length : ℚ) * 100 ≤ 1 * 100 :=
              mul_le_mul_of_nonneg_right hdiv (by norm_num)
        _ = 100 := by norm_num

/-- C8: every completed run's reported iteration count equals the
length of the returned per-attempt summary list, the returned approval
flag equals `final_score >= threshold`, and it equals the approval flag
of the last summary entry. -/
theorem generate_post_result_invariants (threshold : ℚ) (N : Nat) (outline : String)
    (drafts : Nat → String) (reviews : Nat → ℚ × String) :
    (generate_post threshold N outline drafts reviews).iterations =
      (generate_post threshold N outline drafts reviews).workflowSummary.length ∧
    (generate_post threshold N outline drafts reviews).approved =
      decide (threshold ≤ (generate_post threshold N outline drafts reviews).finalScore) ∧
    ((generate_post threshold N outline drafts reviews).workflowSummary.getLast?).map
        (fun e => e.approved) =
      some (generate_post threshold N outline drafts reviews).approved := by
  obtain ⟨k, hk, hw, hc, hi, hl, e, he, hea⟩ := critiqueLoop_spec threshold N reviews drafts
    (N + 1) 0
    { content := drafts 0, iterations := 1, finalScore := 0, log := [],
      writerCalls := 1, critiqueCalls := 0 } (by omega) (by omega)
  have hpi : (generate_post threshold N outline drafts reviews).iterations = 1 + k := by
    simpa [generate_post] using hi
  have hpl : (generate_post threshold N outline drafts reviews).workflowSummary.length
      = 0 + (k + 1) := by
    simpa [generate_post] using hl
  refine ⟨by omega, rfl, ?_⟩
  have hpe : (generate_post threshold N outline drafts reviews).workflowSummary.getLast?
      = some e := by
    simpa [generate_post] using he
  rw [hpe, Option.map_some', hea]
  rfl
